import Mathlib

/-!
Verification of the gedit multi-notebook pane manager
(`gedit/gedit-multi-notebook.c`) and document tab controller
(`gedit/gedit-tab.c`) against their natural-language specification.

The C code is shallowly embedded: GObject state becomes Lean structures,
signal handlers become state-transforming functions, GTK-level events
(page added/removed to a notebook widget) become explicit operations that
first perform the widget mutation and then invoke the connected handler,
exactly as GTK delivers the `page-added` / `page-removed` signals after
the container has been updated.
-/

namespace Gedit

/-! ## Pane manager (gedit-multi-notebook.c)

A notebook (pane) is identified by a stable id (standing for the widget
pointer) and carries its ordered list of tab ids (the notebook pages).
`GeditMultiNotebookPrivate` holds the flattened notebook list, the running
`total_tabs` counter, the active tab reference and the `removing_notebook`
reentrancy bit.  Emitted signals and property notifications are recorded
in an append-only log. -/

/-- Signals emitted / property notifications issued by the multi-notebook
(`g_signal_emit` and `g_object_notify` calls in gedit-multi-notebook.c). -/
inductive MNSignal where
  | notebookAdded (nid : Nat)
  | notebookRemoved (nid : Nat)
  | tabAdded (nid tab : Nat)
  | tabRemoved (nid tab : Nat)
  | notifyActiveTab
  deriving DecidableEq, Repr

/-- `GeditMultiNotebookPrivate`: the flattened notebook list (pane id with
its pages), `total_tabs`, `active_tab`, and the `removing_notebook` guard
bit, plus the log of emitted signals. -/
structure MNState where
  notebooks : List (Nat × List Nat)
  total_tabs : Int
  active_tab : Option Nat
  removing_notebook : Bool
  log : List MNSignal
  deriving DecidableEq, Repr

/-- The pages of the notebook with id `nid` in a notebook list (first
occurrence, matching pointer lookup); `[]` if no such notebook. -/
def paneTabs (nbs : List (Nat × List Nat)) (nid : Nat) : List Nat :=
  match nbs.find? (fun p => p.1 == nid) with
  | some p => p.2
  | none => []

/-- Mutate the pages of the (first) notebook with id `nid`; a no-op when
no such notebook exists.  Models the GTK container mutating one widget. -/
def updatePane : List (Nat × List Nat) → Nat → (List Nat → List Nat) →
    List (Nat × List Nat)
  | [], _, _ => []
  | p :: ps, nid, f =>
      if p.1 == nid then (p.1, f p.2) :: ps else p :: updatePane ps nid f

/-- Sum of the per-pane tab counts. -/
def sumTabs (s : MNState) : Int :=
  (s.notebooks.map (fun p => (p.2.length : Int))).sum

/-- Body of the `notebook_page_removed` handler, parameterized by the
procedure used for the `remove_notebook (multi, notebook)` call so that
the page-removed events fired while a notebook is being destroyed (where
the `removing_notebook` guard makes that branch unreachable) can reuse the
same body without mutual recursion.  Follows the C source line by line:
decrement `total_tabs`; read the notebook's remaining page count and
whether it is the last notebook; if the total reached zero clear
`active_tab` and notify; if the notebook is empty, no removal is in
progress and it is not the last notebook, remove it; finally emit
`TAB_REMOVED`. -/
def notebook_page_removed_aux (removeProc : MNState → Nat → MNState)
    (s : MNState) (nid tab : Nat) : MNState :=
  let s1 : MNState := { s with total_tabs := s.total_tabs - 1 }
  let num_tabs : Nat := (paneTabs s1.notebooks nid).length
  let last_notebook : Bool := s1.notebooks.length == 1
  let s2 : MNState :=
    if s1.total_tabs == 0 then
      { s1 with active_tab := none, log := s1.log ++ [MNSignal.notifyActiveTab] }
    else s1
  let s3 : MNState :=
    if num_tabs == 0 && !s2.removing_notebook && !last_notebook then
      removeProc s2 nid
    else s2
  { s3 with log := s3.log ++ [MNSignal.tabRemoved nid tab] }

/-- `gtk_widget_destroy` on a notebook destroys its pages in order; each
destruction removes the page and fires `page-removed`, running the
connected handler.  During this loop `removing_notebook` is TRUE, so the
handler's remove-notebook branch is dead (its guard tests
`!removing_notebook`); the identity procedure passed here is therefore
never invoked.  The first argument is the snapshot of the pages still to
destroy. -/
def destroy_pages_go : List Nat → MNState → Nat → MNState
  | [], s, _ => s
  | t :: rest, s, nid =>
      destroy_pages_go rest
        (notebook_page_removed_aux (fun s _ => s)
          { s with notebooks := updatePane s.notebooks nid (fun tabs => tabs.erase t) }
          nid t)
        nid

/-- `remove_notebook`: refuse (with a warning) if this is the only
notebook in the list; otherwise set the `removing_notebook` guard,
destroy the notebook widget (firing page-removed per remaining page),
drop it from the flattened list, clear the guard, and emit
`NOTEBOOK_REMOVED`.  (Focus transfer to the successor pane and the paned
widget surgery affect only widget layout and the active-pane tracking,
which no modelled field depends on.) -/
def remove_notebook (s : MNState) (nid : Nat) : MNState :=
  if s.notebooks.length ≤ 1 then s
  else
    let s1 : MNState := { s with removing_notebook := true }
    let s2 : MNState := destroy_pages_go (paneTabs s1.notebooks nid) s1 nid
    let s3 : MNState :=
      { s2 with notebooks := s2.notebooks.eraseP (fun p => p.1 == nid),
                removing_notebook := false }
    { s3 with log := s3.log ++ [MNSignal.notebookRemoved nid] }

/-- The `notebook_page_removed` signal handler proper. -/
def notebook_page_removed (s : MNState) (nid tab : Nat) : MNState :=
  notebook_page_removed_aux remove_notebook s nid tab

/-- The `notebook_page_added` signal handler: increment `total_tabs` and
emit `TAB_ADDED`. -/
def notebook_page_added (s : MNState) (nid tab : Nat) : MNState :=
  { s with total_tabs := s.total_tabs + 1,
           log := s.log ++ [MNSignal.tabAdded nid tab] }

/-- GTK-level event: a page is inserted at position `pos` of notebook
`nid`; the container mutates first, then `page-added` is delivered to the
connected handler. -/
def gtk_add_tab (s : MNState) (nid tab pos : Nat) : MNState :=
  notebook_page_added
    { s with notebooks := updatePane s.notebooks nid (fun tabs => tabs.insertIdx pos tab) }
    nid tab

/-- GTK-level event: the page at local position `j` of notebook `nid` is
removed; the container mutates first, then `page-removed` is delivered to
the connected handler with the removed child. -/
def gtk_remove_tab (s : MNState) (nid j : Nat) : MNState :=
  let tab : Nat := (paneTabs s.notebooks nid).getD j 0
  notebook_page_removed
    { s with notebooks := updatePane s.notebooks nid (fun tabs => tabs.eraseIdx j) }
    nid tab

/-- `add_notebook`: append the new notebook to the flattened list and
emit `NOTEBOOK_ADDED` (the paned packing affects widget layout only). -/
def add_notebook (s : MNState) (nid : Nat) : MNState :=
  { s with notebooks := s.notebooks ++ [(nid, [])],
           log := s.log ++ [MNSignal.notebookAdded nid] }

/-- `gedit_multi_notebook_init`: the guard bit starts FALSE and the main
notebook (id 0) is added once at construction. -/
def mnInit : MNState :=
  add_notebook
    { notebooks := [], total_tabs := 0, active_tab := none,
      removing_notebook := false, log := [] } 0

/-- Externally triggered pane-manager events: splitting off a new pane
(`gedit_multi_notebook_add_new_notebook`), adding a tab to a pane, and
removing a tab from a pane. -/
inductive MNEvent where
  | addNotebook (nid : Nat)
  | addTab (nid tab pos : Nat)
  | removeTab (nid j : Nat)
  deriving DecidableEq, Repr

/-- Whether an event can actually be delivered by GTK in state `s`: tabs
are only added at valid positions of existing notebooks, and only
existing pages are removed. -/
def MNEvent.valid (s : MNState) : MNEvent → Bool
  | .addNotebook _ => true
  | .addTab nid _ pos =>
      s.notebooks.any (fun p => p.1 == nid) && pos ≤ (paneTabs s.notebooks nid).length
  | .removeTab nid j =>
      s.notebooks.any (fun p => p.1 == nid) && j < (paneTabs s.notebooks nid).length

/-- One pane-manager step: deliver the event if it is deliverable,
otherwise leave the state unchanged (no such GTK event occurs). -/
def mnStep (s : MNState) (e : MNEvent) : MNState :=
  if e.valid s then
    match e with
    | .addNotebook nid => add_notebook s nid
    | .addTab nid tab pos => gtk_add_tab s nid tab pos
    | .removeTab nid j => gtk_remove_tab s nid j
  else s

/-- Run a sequence of pane-manager events. -/
def mnRun (evs : List MNEvent) (s : MNState) : MNState :=
  evs.foldl mnStep s

/-! ### Global tab index mapping -/

/-- `gtk_notebook_page_num`: position of the child in the notebook, `-1`
when it is not a page of this notebook. -/
def gtk_notebook_page_num (pages : List Nat) (tab : Nat) : Int :=
  if tab ∈ pages then (pages.indexOf tab : Int) else -1

/-- `gedit_multi_notebook_get_page_num`: walk the notebooks in list
order; once the notebook holding the tab is found add the local page
number and stop, otherwise accumulate that notebook's page count. -/
def gedit_multi_notebook_get_page_num : List (List Nat) → Nat → Int
  | [], _ => 0
  | pages :: rest, tab =>
      let page_num := gtk_notebook_page_num pages tab
      if page_num != -1 then page_num
      else (pages.length : Int) + gedit_multi_notebook_get_page_num rest tab

/-- Loop of `gedit_multi_notebook_set_current_page`: `pages` accumulates
the page counts seen so far, `single_num` starts at the requested global
index and is decremented by each skipped notebook's count, `idx` is the
position of the notebook under scrutiny.  The walk stops at the first
notebook for which the accumulated count exceeds the requested index; in
C, walking past the end dereferences a null pointer, modelled by `none`. -/
def set_current_page_go :
    List (List Nat) → Int → Int → Int → Nat → Option (Nat × Int)
  | [], _, _, _, _ => none
  | p :: rest, page_num, pages, single_num, idx =>
      let pages := pages + (p.length : Int)
      if pages - 1 ≥ page_num then some (idx, single_num)
      else set_current_page_go rest page_num pages (single_num - (p.length : Int)) (idx + 1)

/-- `gedit_multi_notebook_set_current_page`: inverse lookup from a global
page index to (notebook position, local page index); the chosen
notebook's current page is then set to the local index. -/
def gedit_multi_notebook_set_current_page (nbs : List (List Nat))
    (page_num : Int) : Option (Nat × Int) :=
  set_current_page_go nbs page_num 0 page_num 0

/-- Total number of pages in the first `k` notebooks. -/
def sumTake (nbs : List (List Nat)) (k : Nat) : Int :=
  ((nbs.take k).map (fun p => (p.length : Int))).sum

/-- The tab's owning pane in an arrangement: `tab` is a page of notebook
`k` at local index `j`, and of no earlier notebook. -/
def first_occ (nbs : List (List Nat)) (tab k j : Nat) : Prop :=
  k < nbs.length ∧ tab ∈ nbs.getD k [] ∧ (nbs.getD k []).indexOf tab = j ∧
    ∀ m, m < k → tab ∉ nbs.getD m []

instance (nbs : List (List Nat)) (tab k j : Nat) :
    Decidable (first_occ nbs tab k j) := by
  unfold first_occ
  infer_instance

/-! ## Encoding candidate resolver (gedit-tab.c, get_candidate_encodings)

Encodings are represented by their charset name.  The helpers below live
outside the given sources (GtkSourceView and gedit-utils.c) and are
modelled from the spec. -/

/-- Modelled from the spec: `gtk_source_encoding_get_from_charset`
(GtkSourceView, outside this repository) resolves a charset name to an
encoding when the charset is known; ISO-8859-1 is among the known
charsets. -/
def charsetTable : List String :=
  ["UTF-8", "ISO-8859-1", "ISO-8859-15", "UTF-16", "WINDOWS-1252"]

/-- Modelled from the spec: charset-name resolution; `none` when the
charset is unknown. -/
def gtk_source_encoding_get_from_charset (cs : String) : Option String :=
  if cs ∈ charsetTable then some cs else none

/-- Modelled from the spec: `gtk_source_encoding_get_default_candidates`
(GtkSourceView, outside this repository), the built-in default candidate
list used when the settings list is empty. -/
def default_candidates : List String :=
  ["UTF-8", "CURRENT", "ISO-8859-15", "UTF-16"]

/-- Modelled from the spec: `_gedit_utils_encoding_strv_to_list`
(gedit-utils.c, not among the given sources) converts the settings
charset names to encodings, dropping unresolvable names. -/
def encoding_strv_to_list (strv : List String) : List String :=
  strv.filterMap gtk_source_encoding_get_from_charset

/-- `get_candidate_encodings`: start from the settings candidate list,
substituting the built-in defaults when the setting is empty
(`settings_strv[0] == NULL`); prepend the metadata charset's encoding
when it resolves; finally prepend the file's previously negotiated
encoding when present. -/
def get_candidate_encodings (settings_strv : List String)
    (metadata_charset : Option String) (file_encoding : Option String) :
    List String :=
  let candidates :=
    if settings_strv ≠ [] then encoding_strv_to_list settings_strv
    else default_candidates
  let candidates :=
    match metadata_charset with
    | some cs =>
        match gtk_source_encoding_get_from_charset cs with
        | some enc => enc :: candidates
        | none => candidates
    | none => candidates
  match file_encoding with
  | some enc => enc :: candidates
  | none => candidates

/-! ## Document tab controller (gedit-tab.c) -/

/-- `GeditTabState` (gedit-tab.h). -/
inductive GeditTabState where
  | normal
  | loading
  | reverting
  | saving
  | printing
  | printPreviewing
  | showingPrintPreview
  | loadingError
  | revertingError
  | savingError
  | genericError
  | externallyModifiedNotification
  | closing
  deriving DecidableEq, Repr

/-- `GtkSourceFileSaverFlags` (the three bits the controller uses). -/
structure SaverFlags where
  create_backup : Bool
  ignore_invalid_chars : Bool
  ignore_modification_time : Bool
  deriving DecidableEq, Repr

/-- `GTK_SOURCE_FILE_SAVER_FLAGS_NONE`. -/
def SaverFlags.none : SaverFlags :=
  { create_backup := false, ignore_invalid_chars := false,
    ignore_modification_time := false }

/-- The info bars the controller can install (identified by their
constructor in gedit-tab.c). -/
inductive InfoBarKind where
  | externallyModifiedSavingError
  | noBackupSavingError
  | invalidCharacter
  | unrecoverableSavingError
  | conversionErrorWhileSaving
  | printingProgress
  deriving DecidableEq, Repr

/-- GError domains distinguished by `save_cb`. -/
inductive ErrorDomain where
  | saverError
  | ioError
  | convertError
  deriving DecidableEq, Repr

/-- GError codes distinguished by `save_cb` (codes of the respective
domains; every comparison in the source is guarded by a domain check). -/
inductive ErrorCode where
  | externallyModified
  | invalidChars
  | cantCreateBackup
  | invalidData
  | partialInput
  | other
  deriving DecidableEq, Repr

/-- A `GError` as observed by `save_cb`. -/
structure GErr where
  domain : ErrorDomain
  code : ErrorCode
  deriving DecidableEq, Repr

/-- `GeditTabPrivate` plus the document/settings facts the modelled
operations read.  `saver_flags` records the flags set on the file saver
of the pending save task (`gtk_source_file_saver_set_flags` on
`data->saver`). -/
structure GeditTab where
  state : GeditTabState
  loader : Bool
  cancellable : Bool
  task_saver : Bool
  saver_flags : Option SaverFlags
  save_flags : SaverFlags
  setting_create_backup : Bool
  print_job : Bool
  print_preview : Bool
  info_bar : Option InfoBarKind
  ask_if_externally_modified : Bool
  doc_untitled : Bool
  doc_readonly : Bool
  doc_modified : Bool
  doc_needs_saving : Bool
  has_location : Bool
  deriving DecidableEq, Repr

/-- `gedit_tab_set_state`: a no-op when the state is unchanged; otherwise
store the new state.  (The recomputed view properties, frame visibility,
cursor shape and auto-save timer affect no modelled field.) -/
def gedit_tab_set_state (t : GeditTab) (st : GeditTabState) : GeditTab :=
  if t.state = st then t else { t with state := st }

/-- Outcome of an entry point: whether the requested operation was
actually started, or refused (`g_return_if_fail` / `g_warning` followed
by an early return in the source). -/
inductive OpResult where
  | started
  | refused
  deriving DecidableEq, Repr

/-- `close_printing`: destroy the print preview, drop the print job and
preview references, clear the info bar and return to `NORMAL`. -/
def close_printing (t : GeditTab) : GeditTab :=
  gedit_tab_set_state
    { t with print_job := false, print_preview := false, info_bar := none }
    GeditTabState.normal

/-- `save` (static): enter the `SAVING` state, emit the document's
"save" notification and start the async saver. -/
def tab_save (t : GeditTab) : GeditTab :=
  gedit_tab_set_state t GeditTabState.saving

/-- `get_initial_save_flags`: the persisted `priv->save_flags`, plus the
`CREATE_BACKUP` bit when the create-backup-copy setting is enabled and
this is not an auto save. -/
def get_initial_save_flags (t : GeditTab) (auto_save : Bool) : SaverFlags :=
  let save_flags := t.save_flags
  if t.setting_create_backup && !auto_save then
    { save_flags with create_backup := true }
  else save_flags

/-- `_gedit_tab_load`: requires the `NORMAL` state
(`g_return_if_fail`, refusing otherwise); enters `LOADING`, replaces any
leftover loader (with a warning), sets the location, creates the loader,
and starts the async load with a fresh cancellable. -/
def gedit_tab_load (t : GeditTab) : GeditTab × OpResult :=
  if t.state ≠ GeditTabState.normal then (t, OpResult.refused)
  else
    let t1 := gedit_tab_set_state t GeditTabState.loading
    let t2 := { t1 with loader := true, has_location := true }
    ({ t2 with cancellable := true }, OpResult.started)

/-- `_gedit_tab_revert`: requires `NORMAL` or
`EXTERNALLY_MODIFIED_NOTIFICATION`; in the latter case the info bar is
dismissed first; requires a location; enters `REVERTING`, replaces any
leftover loader and starts the async reload. -/
def gedit_tab_revert (t : GeditTab) : GeditTab × OpResult :=
  if t.state ≠ GeditTabState.normal ∧
     t.state ≠ GeditTabState.externallyModifiedNotification then
    (t, OpResult.refused)
  else
    let t1 :=
      if t.state = GeditTabState.externallyModifiedNotification then
        { t with info_bar := none }
      else t
    if !t1.has_location then (t1, OpResult.refused)
    else
      let t2 := gedit_tab_set_state t1 GeditTabState.reverting
      let t3 := { t2 with loader := true }
      ({ t3 with cancellable := true }, OpResult.started)

/-- `_gedit_tab_save_async`: requires `NORMAL`,
`EXTERNALLY_MODIFIED_NOTIFICATION` or `SHOWING_PRINT_PREVIEW`; refuses
with a warning when a save task already exists; closes the print preview
when one is showing; requires a titled document; creates the save task,
computes the initial flags (adding `IGNORE_MODIFICATION_TIME` and
dismissing the info bar in the externally-modified case), configures the
saver and starts the save. -/
def gedit_tab_save_async (t : GeditTab) : GeditTab × OpResult :=
  if t.state ≠ GeditTabState.normal ∧
     t.state ≠ GeditTabState.externallyModifiedNotification ∧
     t.state ≠ GeditTabState.showingPrintPreview then
    (t, OpResult.refused)
  else if t.task_saver then (t, OpResult.refused)
  else
    let t1 :=
      if t.state = GeditTabState.showingPrintPreview then close_printing t else t
    if t1.doc_untitled then (t1, OpResult.refused)
    else
      let t2 := { t1 with task_saver := true }
      let flags := get_initial_save_flags t2 false
      let t3 :=
        if t2.state = GeditTabState.externallyModifiedNotification then
          { t2 with info_bar := none,
                    saver_flags := some { flags with ignore_modification_time := true } }
        else { t2 with saver_flags := some flags }
      (tab_save t3, OpResult.started)

/-- Return value of a GSource callback. -/
inductive SourceOutcome where
  | sourceContinue
  | sourceRemove
  deriving DecidableEq, Repr

/-- `gedit_tab_auto_save` (the auto-save timer tick): bail out on
untitled or read-only documents; skip silently when the buffer is
unmodified (keeping the timer); when not in `NORMAL`, schedule a one-shot
30-second retry (timer handle not modelled) and remove the recurring
timer; refuse with a warning when a save task already exists; otherwise
create the save task and saver, set the initial flags computed with
`auto_save = TRUE` and start the save. -/
def gedit_tab_auto_save (t : GeditTab) : GeditTab × SourceOutcome :=
  if t.doc_untitled then (t, SourceOutcome.sourceRemove)
  else if t.doc_readonly then (t, SourceOutcome.sourceRemove)
  else if !t.doc_modified then (t, SourceOutcome.sourceContinue)
  else if t.state ≠ GeditTabState.normal then (t, SourceOutcome.sourceRemove)
  else if t.task_saver then (t, SourceOutcome.sourceRemove)
  else
    let t1 := { t with task_saver := true }
    let t2 := { t1 with saver_flags := some (get_initial_save_flags t1 true) }
    (tab_save t2, SourceOutcome.sourceRemove)

/-- The error-classification chain of `save_cb`, in source order:
externally-modified, then backup-creation failure, then invalid
characters, then the unrecoverable bucket (any other saver error, or an
I/O error that is neither invalid-data nor partial-input), and finally
the recoverable conversion-error bucket. -/
def classify_saving_error (e : GErr) : InfoBarKind :=
  if e.domain = ErrorDomain.saverError ∧ e.code = ErrorCode.externallyModified then
    InfoBarKind.externallyModifiedSavingError
  else if e.domain = ErrorDomain.ioError ∧ e.code = ErrorCode.cantCreateBackup then
    InfoBarKind.noBackupSavingError
  else if e.domain = ErrorDomain.saverError ∧ e.code = ErrorCode.invalidChars then
    InfoBarKind.invalidCharacter
  else if e.domain = ErrorDomain.saverError ∨
          (e.domain = ErrorDomain.ioError ∧ e.code ≠ ErrorCode.invalidData ∧
           e.code ≠ ErrorCode.partialInput) then
    InfoBarKind.unrecoverableSavingError
  else
    InfoBarKind.conversionErrorWhileSaving

/-- `save_cb` (completion of the async save): requires the `SAVING`
state and a pending save task; clears the progress info bar; on error
enters `SAVING_ERROR` and installs the info bar selected by the
classification chain; on success returns to `NORMAL`, re-arms the
externally-modified check and resolves the task with success. -/
def save_cb (t : GeditTab) (error : Option GErr) : GeditTab :=
  if t.state ≠ GeditTabState.saving ∨ t.task_saver = false then t
  else
    let t1 := { t with info_bar := none }
    match error with
    | some e =>
        let t2 := gedit_tab_set_state t1 GeditTabState.savingError
        { t2 with info_bar := some (classify_saving_error e) }
    | none =>
        let t2 := gedit_tab_set_state t1 GeditTabState.normal
        { t2 with ask_if_externally_modified := true }

/-- `_gedit_tab_print`: when a print preview is showing, close it first;
require no pending print job and the `NORMAL` state (refusing
otherwise); create the print job, install the printing progress info
bar, enter `PRINTING` and run the print operation; when the operation
reports an immediate error, close the printing and return to `NORMAL`.
`print_error` stands for the external print operation's result. -/
def gedit_tab_print (t : GeditTab) (print_error : Bool) : GeditTab × OpResult :=
  let t1 := if t.state = GeditTabState.showingPrintPreview then close_printing t else t
  if t1.print_job then (t1, OpResult.refused)
  else if t1.state ≠ GeditTabState.normal then (t1, OpResult.refused)
  else
    let t2 := { t1 with print_job := true, info_bar := some InfoBarKind.printingProgress }
    let t3 := gedit_tab_set_state t2 GeditTabState.printing
    if print_error then (close_printing t3, OpResult.started)
    else (t3, OpResult.started)

/-- `_gedit_tab_get_can_close`: loading, loading-error, reverting and
reverting-error tabs can always be closed; a tab with a saving error can
never be closed; otherwise the tab can be closed iff the document does
not need saving. -/
def gedit_tab_get_can_close (t : GeditTab) : Bool :=
  if t.state = GeditTabState.loading ∨ t.state = GeditTabState.loadingError ∨
     t.state = GeditTabState.reverting ∨ t.state = GeditTabState.revertingError then
    true
  else if t.state = GeditTabState.savingError then false
  else !t.doc_needs_saving

/-! ## Spec-side definitions used for refinement statements -/

/-- Spec-side candidate resolver, following the spec's words: the
previously negotiated file encoding first, then the resolved metadata
charset, then the settings list with the built-in defaults substituted
when the settings list is empty. -/
def candidate_encodings_spec (settings_strv : List String)
    (metadata_charset : Option String) (file_encoding : Option String) :
    List String :=
  file_encoding.toList ++
  (metadata_charset.bind gtk_source_encoding_get_from_charset).toList ++
  (if settings_strv = [] then default_candidates
   else encoding_strv_to_list settings_strv)

/-- A concrete tab in the `NORMAL` state with all handles clear, used as
the base point of concrete scenarios. -/
def baseTab : GeditTab :=
  { state := GeditTabState.normal, loader := false, cancellable := false,
    task_saver := false, saver_flags := none, save_flags := SaverFlags.none,
    setting_create_backup := false, print_job := false, print_preview := false,
    info_bar := none, ask_if_externally_modified := false,
    doc_untitled := false, doc_readonly := false, doc_modified := false,
    doc_needs_saving := false, has_location := true }

/-- A concrete tab showing a print preview: the preview widget is
embedded and the print job still alive, as after the print job's
show-preview event. -/
def previewTab : GeditTab :=
  { baseTab with
      state := GeditTabState.showingPrintPreview
      print_job := true
      print_preview := true }

/-- A concrete pane-manager event sequence: open a tab in the main pane,
split off a second pane, open a tab there, then close the main pane's
only tab. -/
def mainPaneTrace : List MNEvent :=
  [MNEvent.addTab 0 1 0, MNEvent.addNotebook 1, MNEvent.addTab 1 2 0,
   MNEvent.removeTab 0 0]

/-- Sum of the per-pane tab counts of a notebook list. -/
def sumL (nbs : List (Nat × List Nat)) : Int :=
  (nbs.map (fun p => (p.2.length : Int))).sum

/-! ## Lemmas about the global tab index mapping -/

lemma sumTake_nonneg (nbs : List (List Nat)) (k : Nat) : 0 ≤ sumTake nbs k := by
  unfold sumTake
  induction nbs.take k with
  | nil => simp
  | cons p rest ih =>
      simp only [List.map_cons, List.sum_cons]
      have : (0 : Int) ≤ (p.length : Int) := Int.natCast_nonneg _
      omega

lemma sumTake_cons (p : List Nat) (rest : List (List Nat)) (k : Nat) :
    sumTake (p :: rest) (k + 1) = (p.length : Int) + sumTake rest k := by
  simp [sumTake]

lemma get_page_num_first_occ (nbs : List (List Nat)) (tab k j : Nat)
    (h : first_occ nbs tab k j) :
    gedit_multi_notebook_get_page_num nbs tab = sumTake nbs k + (j : Int) := by
  induction nbs generalizing k with
  | nil => exact absurd h.1 (by simp)
  | cons p rest ih =>
      obtain ⟨hk, hmem, hidx, hbefore⟩ := h
      cases k with
      | zero =>
          simp only [List.getD_cons_zero] at hmem hidx
          unfold gedit_multi_notebook_get_page_num gtk_notebook_page_num
          have hne : ((p.indexOf tab : Int)) ≠ -1 := by
            have : (0 : Int) ≤ (p.indexOf tab : Int) := Int.natCast_nonneg _
            omega
          simp [hmem, hne, hidx, sumTake]
      | succ k =>
          have hnot : tab ∉ p := by
            have := hbefore 0 (Nat.succ_pos k)
            simpa using this
          unfold gedit_multi_notebook_get_page_num gtk_notebook_page_num
          simp only [hnot, if_false]
          have hrec : first_occ rest tab k j := by
            refine ⟨by simpa using hk, by simpa using hmem, by simpa using hidx,
              fun m hm => ?_⟩
            have := hbefore (m + 1) (by omega)
            simpa using this
          rw [if_neg (by simp), ih k hrec, sumTake_cons]
          ring

lemma set_current_page_go_reaches (nbs : List (List Nat)) (k j : Nat) :
    ∀ (pages : Int) (idx : Nat), k < nbs.length → j < (nbs.getD k []).length →
    set_current_page_go nbs (pages + sumTake nbs k + (j : Int)) pages
      (sumTake nbs k + (j : Int)) idx = some (idx + k, (j : Int)) := by
  induction nbs generalizing k with
  | nil => intro pages idx hk; exact absurd hk (by simp)
  | cons p rest ih =>
      intro pages idx hk hj
      cases k with
      | zero =>
          simp only [List.getD_cons_zero] at hj
          unfold set_current_page_go
          have hcond : pages + (p.length : Int) - 1 ≥
              pages + sumTake (p :: rest) 0 + (j : Int) := by
            simp only [sumTake, List.take_zero, List.map_nil, List.sum_nil]
            omega
          simp only [ge_iff_le, if_pos hcond]
          simp [sumTake]
      | succ k =>
          have hk2 : k < rest.length := by simpa using hk
          have hj2 : j < (rest.getD k []).length := by simpa using hj
          unfold set_current_page_go
          have hS : 0 ≤ sumTake rest k := sumTake_nonneg rest k
          have hcond : ¬ (pages + (p.length : Int) - 1 ≥
              pages + sumTake (p :: rest) (k + 1) + (j : Int)) := by
            rw [sumTake_cons]
            omega
          simp only [ge_iff_le, if_neg hcond]
          have heq1 : pages + sumTake (p :: rest) (k + 1) + (j : Int) =
              (pages + (p.length : Int)) + sumTake rest k + (j : Int) := by
            rw [sumTake_cons]; ring
          have heq2 : sumTake (p :: rest) (k + 1) + (j : Int) - (p.length : Int) =
              sumTake rest k + (j : Int) := by
            rw [sumTake_cons]; ring
          rw [heq1, heq2, ih k (pages + (p.length : Int)) (idx + 1) hk2 hj2]
          have hidx : idx + 1 + k = idx + (k + 1) := by omega
          rw [hidx]

/-! ## Lemmas about the pane manager -/

lemma sumTabs_eq_sumL (s : MNState) : sumTabs s = sumL s.notebooks := rfl

lemma paneTabs_of_find (nbs : List (Nat × List Nat)) (nid : Nat)
    (p : Nat × List Nat) (h : nbs.find? (fun q => q.1 == nid) = some p) :
    paneTabs nbs nid = p.2 := by
  unfold paneTabs
  rw [h]

lemma paneTabs_of_find_none (nbs : List (Nat × List Nat)) (nid : Nat)
    (h : nbs.find? (fun q => q.1 == nid) = none) :
    paneTabs nbs nid = [] := by
  unfold paneTabs
  rw [h]

lemma find_updatePane (nbs : List (Nat × List Nat)) (nid : Nat)
    (f : List Nat → List Nat) :
    (updatePane nbs nid f).find? (fun q => q.1 == nid) =
      (nbs.find? (fun q => q.1 == nid)).map (fun q => (q.1, f q.2)) := by
  induction nbs with
  | nil => rfl
  | cons p ps ih =>
      cases h : (p.1 == nid) with
      | true => simp [updatePane, h, List.find?_cons, ih]
      | false => simp [updatePane, h, List.find?_cons, ih]

lemma updatePane_of_find_none (nbs : List (Nat × List Nat)) (nid : Nat)
    (f : List Nat → List Nat)
    (h : nbs.find? (fun q => q.1 == nid) = none) :
    updatePane nbs nid f = nbs := by
  induction nbs with
  | nil => rfl
  | cons p ps ih =>
      cases hp : (p.1 == nid) with
      | true => simp [List.find?_cons, hp] at h
      | false =>
          simp only [List.find?_cons, hp] at h
          simp [updatePane, hp, ih h]

lemma length_updatePane (nbs : List (Nat × List Nat)) (nid : Nat)
    (f : List Nat → List Nat) :
    (updatePane nbs nid f).length = nbs.length := by
  induction nbs with
  | nil => rfl
  | cons p ps ih =>
      cases h : (p.1 == nid) with
      | true => simp [updatePane, h]
      | false => simp [updatePane, h, ih]

lemma sumL_updatePane (nbs : List (Nat × List Nat)) (nid : Nat)
    (f : List Nat → List Nat) (p : Nat × List Nat)
    (h : nbs.find? (fun q => q.1 == nid) = some p) :
    sumL (updatePane nbs nid f) =
      sumL nbs + ((f p.2).length : Int) - (p.2.length : Int) := by
  induction nbs with
  | nil => simp at h
  | cons q qs ih =>
      cases hq : (q.1 == nid) with
      | true =>
          simp only [List.find?_cons, hq] at h
          simp only [Option.some.injEq] at h
          subst h
          simp [updatePane, hq, sumL]
          ring
      | false =>
          simp only [List.find?_cons, hq] at h
          simp only [updatePane, hq, Bool.false_eq_true, if_false]
          simp only [sumL, List.map_cons, List.sum_cons] at ih ⊢
          rw [ih h]
          ring

lemma eraseP_updatePane (nbs : List (Nat × List Nat)) (nid : Nat)
    (f : List Nat → List Nat) :
    (updatePane nbs nid f).eraseP (fun q => q.1 == nid) =
      nbs.eraseP (fun q => q.1 == nid) := by
  induction nbs with
  | nil => rfl
  | cons p ps ih =>
      cases h : (p.1 == nid) with
      | true => simp [updatePane, h, List.eraseP_cons, ih]
      | false => simp [updatePane, h, List.eraseP_cons, ih]

lemma sumL_eraseP (nbs : List (Nat × List Nat)) (nid : Nat)
    (p : Nat × List Nat) (h : nbs.find? (fun q => q.1 == nid) = some p) :
    sumL (nbs.eraseP (fun q => q.1 == nid)) = sumL nbs - (p.2.length : Int) := by
  induction nbs with
  | nil => simp at h
  | cons q qs ih =>
      cases hq : (q.1 == nid) with
      | true =>
          simp only [List.find?_cons, hq] at h
          simp only [Option.some.injEq] at h
          subst h
          simp [List.eraseP_cons, hq, sumL]
      | false =>
          simp only [List.find?_cons, hq] at h
          simp only [List.eraseP_cons, hq, cond_false]
          simp only [sumL, List.map_cons, List.sum_cons] at ih ⊢
          rw [ih h]
          ring

lemma length_eraseP_ge (nbs : List (Nat × List Nat)) (pred : Nat × List Nat → Bool) :
    nbs.length - 1 ≤ (nbs.eraseP pred).length := by
  induction nbs with
  | nil => simp
  | cons p ps ih =>
      cases h : pred p with
      | true => simp [List.eraseP_cons, h]
      | false =>
          simp only [List.eraseP_cons, h, cond_false, List.length_cons]
          omega

lemma destroy_pages_go_nil (s : MNState) (nid : Nat) :
    destroy_pages_go [] s nid = s := rfl

/-- `remove_notebook` on a notebook that has no pages left (the only way
it is reached in the program): the destroy loop fires no page-removed
events, so the effect is to drop the notebook from the list, reset the
guard and emit `NOTEBOOK_REMOVED` — unless it is the sole notebook, in
which case only a warning is logged. -/
lemma remove_notebook_of_empty (s : MNState) (nid : Nat)
    (h : paneTabs s.notebooks nid = []) :
    remove_notebook s nid =
      if s.notebooks.length ≤ 1 then s
      else
        { s with notebooks := s.notebooks.eraseP (fun q => q.1 == nid),
                 removing_notebook := false,
                 log := s.log ++ [MNSignal.notebookRemoved nid] } := by
  unfold remove_notebook
  split
  · rfl
  · have h2 :
        paneTabs ({ s with removing_notebook := true } : MNState).notebooks nid = [] := h
    simp only [h2, destroy_pages_go]

lemma remove_notebook_total_of_empty (s : MNState) (nid : Nat)
    (h : paneTabs s.notebooks nid = []) :
    (remove_notebook s nid).total_tabs = s.total_tabs := by
  rw [remove_notebook_of_empty s nid h]
  split <;> rfl

lemma remove_notebook_active_of_empty (s : MNState) (nid : Nat)
    (h : paneTabs s.notebooks nid = []) :
    (remove_notebook s nid).active_tab = s.active_tab := by
  rw [remove_notebook_of_empty s nid h]
  split <;> rfl

lemma remove_notebook_notebooks_of_empty (s : MNState) (nid : Nat)
    (h : paneTabs s.notebooks nid = []) :
    (remove_notebook s nid).notebooks =
      if s.notebooks.length ≤ 1 then s.notebooks
      else s.notebooks.eraseP (fun q => q.1 == nid) := by
  rw [remove_notebook_of_empty s nid h]
  split <;> rfl

lemma remove_notebook_log_of_empty (s : MNState) (nid : Nat)
    (h : paneTabs s.notebooks nid = []) :
    (remove_notebook s nid).log =
      if s.notebooks.length ≤ 1 then s.log
      else s.log ++ [MNSignal.notebookRemoved nid] := by
  rw [remove_notebook_of_empty s nid h]
  split <;> rfl

lemma npr_total (s : MNState) (nid tab : Nat) :
    (notebook_page_removed s nid tab).total_tabs = s.total_tabs - 1 := by
  unfold notebook_page_removed notebook_page_removed_aux
  by_cases h0 : (s.total_tabs - 1 == 0) = true <;>
    simp only [h0, if_true, if_false, Bool.false_eq_true] <;>
  · by_cases hc : ((paneTabs s.notebooks nid).length == 0 && !s.removing_notebook &&
        !(s.notebooks.length == 1)) = true
    · have hempty : paneTabs s.notebooks nid = [] := by
        have h1 := ((Bool.and_eq_true _ _).mp ((Bool.and_eq_true _ _).mp hc).1).1
        simpa [List.length_eq_zero] using h1
      simp only [hc, if_true]
      rw [remove_notebook_total_of_empty]
      exact hempty
    · simp only [hc, if_false, Bool.false_eq_true]

lemma npr_active (s : MNState) (nid tab : Nat) :
    (notebook_page_removed s nid tab).active_tab =
      if s.total_tabs - 1 = 0 then none else s.active_tab := by
  unfold notebook_page_removed notebook_page_removed_aux
  by_cases h0 : (s.total_tabs - 1 == 0) = true
  · have h0e : s.total_tabs - 1 = 0 := by simpa using h0
    rw [if_pos h0e]
    simp only [h0, if_true]
    by_cases hc : ((paneTabs s.notebooks nid).length == 0 && !s.removing_notebook &&
        !(s.notebooks.length == 1)) = true
    · have hempty : paneTabs s.notebooks nid = [] := by
        have h1 := ((Bool.and_eq_true _ _).mp ((Bool.and_eq_true _ _).mp hc).1).1
        simpa [List.length_eq_zero] using h1
      simp only [hc, if_true]
      rw [remove_notebook_active_of_empty]
      exact hempty
    · simp only [hc, if_false, Bool.false_eq_true]
  · have h0e : ¬ (s.total_tabs - 1 = 0) := by simpa using h0
    rw [if_neg h0e]
    simp only [h0, if_false, Bool.false_eq_true]
    by_cases hc : ((paneTabs s.notebooks nid).length == 0 && !s.removing_notebook &&
        !(s.notebooks.length == 1)) = true
    · have hempty : paneTabs s.notebooks nid = [] := by
        have h1 := ((Bool.and_eq_true _ _).mp ((Bool.and_eq_true _ _).mp hc).1).1
        simpa [List.length_eq_zero] using h1
      simp only [hc, if_true]
      rw [remove_notebook_active_of_empty]
      exact hempty
    · simp only [hc, if_false, Bool.false_eq_true]

lemma npr_notebooks (s : MNState) (nid tab : Nat) :
    (notebook_page_removed s nid tab).notebooks =
      if (paneTabs s.notebooks nid).length == 0 && !s.removing_notebook &&
         !(s.notebooks.length == 1) then
        s.notebooks.eraseP (fun q => q.1 == nid)
      else s.notebooks := by
  unfold notebook_page_removed notebook_page_removed_aux
  by_cases h0 : (s.total_tabs - 1 == 0) = true <;>
    simp only [h0, if_true, if_false, Bool.false_eq_true] <;>
  · by_cases hc : ((paneTabs s.notebooks nid).length == 0 && !s.removing_notebook &&
        !(s.notebooks.length == 1)) = true
    · have hempty : paneTabs s.notebooks nid = [] := by
        have h1 := ((Bool.and_eq_true _ _).mp ((Bool.and_eq_true _ _).mp hc).1).1
        simpa [List.length_eq_zero] using h1
      have hne1 : s.notebooks.length ≠ 1 := by
        have h3 := ((Bool.and_eq_true _ _).mp hc).2
        simpa using h3
      simp only [hc, if_true]
      rw [remove_notebook_notebooks_of_empty]
      · dsimp only
        by_cases hlen : s.notebooks.length ≤ 1
        · have : s.notebooks = [] := List.length_eq_zero.mp (by omega)
          simp [this]
        · rw [if_neg hlen]
      · exact hempty
    · simp only [hc, if_false, Bool.false_eq_true]

lemma npr_log_notify (s : MNState) (nid tab : Nat)
    (h : s.total_tabs - 1 = 0) :
    MNSignal.notifyActiveTab ∈ (notebook_page_removed s nid tab).log := by
  unfold notebook_page_removed notebook_page_removed_aux
  have h0 : (s.total_tabs - 1 == 0) = true := by simpa using h
  simp only [h0, if_true]
  by_cases hc : ((paneTabs s.notebooks nid).length == 0 && !s.removing_notebook &&
      !(s.notebooks.length == 1)) = true
  · have hempty : paneTabs s.notebooks nid = [] := by
      have h1 := ((Bool.and_eq_true _ _).mp ((Bool.and_eq_true _ _).mp hc).1).1
      simpa [List.length_eq_zero] using h1
    simp only [hc, if_true, List.mem_append]
    left
    rw [remove_notebook_log_of_empty]
    · dsimp only
      split <;> simp
    · exact hempty
  · simp only [hc, if_false, Bool.false_eq_true, List.mem_append]
    simp

lemma npr_log_removed (s : MNState) (nid tab : Nat)
    (hc : ((paneTabs s.notebooks nid).length == 0 && !s.removing_notebook &&
      !(s.notebooks.length == 1)) = true)
    (hlen : 2 ≤ s.notebooks.length) :
    MNSignal.notebookRemoved nid ∈ (notebook_page_removed s nid tab).log := by
  unfold notebook_page_removed notebook_page_removed_aux
  have hempty : paneTabs s.notebooks nid = [] := by
    have h1 := ((Bool.and_eq_true _ _).mp ((Bool.and_eq_true _ _).mp hc).1).1
    simpa [List.length_eq_zero] using h1
  by_cases h0 : (s.total_tabs - 1 == 0) = true <;>
    simp only [h0, if_true, if_false, Bool.false_eq_true] <;>
  · simp only [hc, if_true, List.mem_append]
    left
    rw [remove_notebook_log_of_empty]
    · dsimp only
      rw [if_neg (by omega)]
      simp
    · exact hempty

lemma sumL_append (l1 l2 : List (Nat × List Nat)) :
    sumL (l1 ++ l2) = sumL l1 + sumL l2 := by
  simp [sumL]

lemma find_of_any (nbs : List (Nat × List Nat)) (nid : Nat)
    (h : nbs.any (fun p => p.1 == nid) = true) :
    ∃ p, nbs.find? (fun q => q.1 == nid) = some p := by
  cases hf : nbs.find? (fun q => q.1 == nid) with
  | some p => exact ⟨p, rfl⟩
  | none =>
      rw [List.find?_eq_none] at hf
      rw [List.any_eq_true] at h
      obtain ⟨x, hx, hpx⟩ := h
      exact absurd hpx (by simpa using hf x hx)

/-- One pane-manager step preserves the tab-count invariant. -/
lemma mnStep_total_inv (s : MNState) (e : MNEvent)
    (h : s.total_tabs = sumTabs s) :
    (mnStep s e).total_tabs = sumTabs (mnStep s e) := by
  unfold mnStep
  by_cases hv : e.valid s = true
  · rw [if_pos hv]
    cases e with
    | addNotebook nid =>
        simp only [sumTabs_eq_sumL] at h ⊢
        simp only [add_notebook]
        rw [sumL_append]
        simp [sumL, h]
    | addTab nid tab pos =>
        unfold MNEvent.valid at hv
        rw [Bool.and_eq_true] at hv
        obtain ⟨hany, hle⟩ := hv
        obtain ⟨p, hf⟩ := find_of_any _ _ hany
        have hpt := paneTabs_of_find _ _ _ hf
        have hle2 : pos ≤ p.2.length := by
          rw [hpt] at hle
          simpa using hle
        show (gtk_add_tab s nid tab pos).total_tabs =
          sumTabs (gtk_add_tab s nid tab pos)
        unfold gtk_add_tab notebook_page_added
        simp only [sumTabs_eq_sumL]
        rw [sumL_updatePane _ _ _ _ hf, List.length_insertIdx _ _ hle2]
        simp only [sumTabs_eq_sumL] at h
        push_cast
        omega
    | removeTab nid j =>
        unfold MNEvent.valid at hv
        rw [Bool.and_eq_true] at hv
        obtain ⟨hany, hlt⟩ := hv
        obtain ⟨p, hf⟩ := find_of_any _ _ hany
        have hpt := paneTabs_of_find _ _ _ hf
        have hlt2 : j < p.2.length := by
          rw [hpt] at hlt
          simpa using hlt
        have herase : (p.2.eraseIdx j).length + 1 = p.2.length :=
          List.length_eraseIdx_add_one hlt2
        show (gtk_remove_tab s nid j).total_tabs =
          sumTabs (gtk_remove_tab s nid j)
        unfold gtk_remove_tab
        rw [npr_total, sumTabs_eq_sumL, npr_notebooks]
        dsimp only
        simp only [sumTabs_eq_sumL] at h
        have hfu : (updatePane s.notebooks nid
              (fun tabs => tabs.eraseIdx j)).find? (fun q => q.1 == nid) =
            some (p.1, p.2.eraseIdx j) := by
          rw [find_updatePane, hf]
          rfl
        have hptu : paneTabs (updatePane s.notebooks nid
            (fun tabs => tabs.eraseIdx j)) nid = p.2.eraseIdx j :=
          paneTabs_of_find _ _ _ hfu
        split
        · rename_i hcond
          have hemplen : (p.2.eraseIdx j).length = 0 := by
            have h1 := ((Bool.and_eq_true _ _).mp
              ((Bool.and_eq_true _ _).mp hcond).1).1
            rw [hptu] at h1
            simpa using h1
          rw [eraseP_updatePane, sumL_eraseP _ _ _ hf]
          omega
        · rw [sumL_updatePane _ _ _ _ hf]
          omega
  · rw [if_neg hv]
    exact h

lemma mnRun_preserve (P : MNState → Prop)
    (hstep : ∀ s e, P s → P (mnStep s e)) :
    ∀ (evs : List MNEvent) (s : MNState), P s → P (mnRun evs s) := by
  intro evs
  induction evs with
  | nil => exact fun s h => h
  | cons e rest ih => exact fun s h => ih (mnStep s e) (hstep s e h)

/-- One pane-manager step keeps the pane list nonempty. -/
lemma mnStep_length (s : MNState) (e : MNEvent)
    (h : 1 ≤ s.notebooks.length) :
    1 ≤ (mnStep s e).notebooks.length := by
  unfold mnStep
  by_cases hv : e.valid s = true
  · rw [if_pos hv]
    cases e with
    | addNotebook nid =>
        simp only [add_notebook]
        simp
    | addTab nid tab pos =>
        show 1 ≤ (gtk_add_tab s nid tab pos).notebooks.length
        unfold gtk_add_tab notebook_page_added
        simpa [length_updatePane] using h
    | removeTab nid j =>
        show 1 ≤ (gtk_remove_tab s nid j).notebooks.length
        unfold gtk_remove_tab
        rw [npr_notebooks]
        dsimp only
        split
        · rename_i hcond
          have hne1 : (updatePane s.notebooks nid
              (fun tabs => tabs.eraseIdx j)).length ≠ 1 := by
            have h3 := ((Bool.and_eq_true _ _).mp hcond).2
            simpa using h3
          rw [length_updatePane] at hne1
          have hge := length_eraseP_ge (updatePane s.notebooks nid
            (fun tabs => tabs.eraseIdx j)) (fun q => q.1 == nid)
          rw [length_updatePane] at hge
          omega
        · simpa [length_updatePane] using h
  · rw [if_neg hv]
    exact h

/-! ## Theorems for the individual claims -/

/-- C1: the pane manager's `total_tabs` equals the sum of the per-pane
tab counts after every event sequence from construction; each page-added
event increments it by exactly one and each page-removed event decrements
it by exactly one, whatever pane raised it; and when it reaches zero the
active-tab reference is cleared and its property change notified. -/
theorem c1_total_tab_count_invariant :
    (∀ evs : List MNEvent,
      (mnRun evs mnInit).total_tabs = sumTabs (mnRun evs mnInit)) ∧
    (∀ (s : MNState) (nid tab pos : Nat),
      (gtk_add_tab s nid tab pos).total_tabs = s.total_tabs + 1) ∧
    (∀ (s : MNState) (nid j : Nat),
      (gtk_remove_tab s nid j).total_tabs = s.total_tabs - 1) ∧
    (∀ (s : MNState) (nid j : Nat),
      (gtk_remove_tab s nid j).total_tabs = 0 →
        (gtk_remove_tab s nid j).active_tab = none ∧
        MNSignal.notifyActiveTab ∈ (gtk_remove_tab s nid j).log) := by
  refine ⟨?_, ?_, ?_, ?_⟩
  · intro evs
    exact mnRun_preserve (fun s => s.total_tabs = sumTabs s)
      mnStep_total_inv evs mnInit rfl
  · intro s nid tab pos
    rfl
  · intro s nid j
    exact npr_total _ nid _
  · intro s nid j h
    have htot : (gtk_remove_tab s nid j).total_tabs = s.total_tabs - 1 :=
      npr_total _ nid _
    have hz : s.total_tabs - 1 = 0 := by omega
    constructor
    · show (notebook_page_removed _ nid _).active_tab = none
      rw [npr_active]
      exact if_pos hz
    · exact npr_log_notify _ nid _ hz

/-- Witness for C1 (fourth conjunct): removing the sole tab of the sole
pane drives the total to zero, clears the active tab and notifies. -/
theorem c1_total_tab_count_invariant_witness :
    (gtk_remove_tab
        { notebooks := [(0, [5])], total_tabs := 1, active_tab := some 5,
          removing_notebook := false, log := [] } 0 0).active_tab = none ∧
      MNSignal.notifyActiveTab ∈
        (gtk_remove_tab
          { notebooks := [(0, [5])], total_tabs := 1, active_tab := some 5,
            removing_notebook := false, log := [] } 0 0).log :=
  c1_total_tab_count_invariant.2.2.2
    { notebooks := [(0, [5])], total_tabs := 1, active_tab := some 5,
      removing_notebook := false, log := [] } 0 0 (by decide)

/-- C2: removing the only tab of a non-main pane while at least two panes
exist and no pane removal is in progress removes that pane (the
remove-pane procedure runs and `NOTEBOOK_REMOVED` is emitted); removing
the only tab of the sole remaining pane keeps the pane and clears the
active tab; and while a pane removal is in progress (reentrancy guard) no
pane is removed. -/
theorem c2_empty_pane_removal :
    (∀ (s : MNState) (nid t : Nat),
      2 ≤ s.notebooks.length →
      s.removing_notebook = false →
      paneTabs s.notebooks nid = [t] →
      Option.all (fun q => !(q.1 == nid)) s.notebooks.head? = true →
      (gtk_remove_tab s nid 0).notebooks =
          s.notebooks.eraseP (fun q => q.1 == nid) ∧
        MNSignal.notebookRemoved nid ∈ (gtk_remove_tab s nid 0).log) ∧
    (∀ (s : MNState) (nid t : Nat),
      s.notebooks = [(nid, [t])] →
      s.total_tabs = 1 →
      (gtk_remove_tab s nid 0).notebooks = [(nid, [])] ∧
        (gtk_remove_tab s nid 0).active_tab = none ∧
        MNSignal.notifyActiveTab ∈ (gtk_remove_tab s nid 0).log) ∧
    (∀ (s : MNState) (nid j : Nat),
      s.removing_notebook = true →
      (gtk_remove_tab s nid j).notebooks.length = s.notebooks.length) := by
  refine ⟨?_, ?_, ?_⟩
  · intro s nid t hlen hrg hpt hmain
    have hf : ∃ p, s.notebooks.find? (fun q => q.1 == nid) = some p := by
      cases hff : s.notebooks.find? (fun q => q.1 == nid) with
      | some p => exact ⟨p, rfl⟩
      | none =>
          rw [paneTabs_of_find_none _ _ hff] at hpt
          cases hpt
    obtain ⟨p, hf⟩ := hf
    have hp2 : p.2 = [t] := by
      have := paneTabs_of_find _ _ _ hf
      rw [this] at hpt
      exact hpt
    have hfu : (updatePane s.notebooks nid
          (fun tabs => tabs.eraseIdx 0)).find? (fun q => q.1 == nid) =
        some (p.1, p.2.eraseIdx 0) := by
      rw [find_updatePane, hf]
      rfl
    have hptu : paneTabs (updatePane s.notebooks nid
        (fun tabs => tabs.eraseIdx 0)) nid = [] := by
      rw [paneTabs_of_find _ _ _ hfu, hp2]
      rfl
    have hcond : ((paneTabs (updatePane s.notebooks nid
          (fun tabs => tabs.eraseIdx 0)) nid).length == 0 &&
        !s.removing_notebook &&
        !((updatePane s.notebooks nid
          (fun tabs => tabs.eraseIdx 0)).length == 1)) = true := by
      rw [hptu, hrg, length_updatePane]
      simp
      omega
    constructor
    · show (notebook_page_removed _ nid _).notebooks = _
      rw [npr_notebooks]
      rw [if_pos hcond, eraseP_updatePane]
    · show MNSignal.notebookRemoved nid ∈ (notebook_page_removed _ nid _).log
      exact npr_log_removed _ nid _ hcond (by rw [length_updatePane]; exact hlen)
  · intro s nid t hnb htot
    have hs' : updatePane s.notebooks nid (fun tabs => tabs.eraseIdx 0) =
        [(nid, [])] := by
      rw [hnb]
      simp [updatePane]
    have hcond : ¬ (((paneTabs (updatePane s.notebooks nid
          (fun tabs => tabs.eraseIdx 0)) nid).length == 0 &&
        !s.removing_notebook &&
        !((updatePane s.notebooks nid
          (fun tabs => tabs.eraseIdx 0)).length == 1)) = true) := by
      rw [hs']
      simp
    refine ⟨?_, ?_, ?_⟩
    · show (notebook_page_removed _ nid _).notebooks = _
      rw [npr_notebooks, if_neg hcond, hs']
    · show (notebook_page_removed _ nid _).active_tab = none
      rw [npr_active]
      exact if_pos (by simp [htot])
    · exact npr_log_notify _ nid _ (by simp [htot])
  · intro s nid j hrg
    show (notebook_page_removed _ nid _).notebooks.length = _
    rw [npr_notebooks]
    have hcond : ¬ (((paneTabs (updatePane s.notebooks nid
          (fun tabs => tabs.eraseIdx j)) nid).length == 0 &&
        !s.removing_notebook &&
        !((updatePane s.notebooks nid
          (fun tabs => tabs.eraseIdx j)).length == 1)) = true) := by
      rw [hrg]
      simp
    rw [if_neg hcond, length_updatePane]

/-- Witness for C2 (first conjunct): a two-pane arrangement where the
second pane holds a single tab; removing that tab removes the pane. -/
theorem c2_empty_pane_removal_witness :
    (gtk_remove_tab
        { notebooks := [(0, [1]), (5, [7])], total_tabs := 2,
          active_tab := some 1, removing_notebook := false, log := [] }
        5 0).notebooks =
      List.eraseP (fun q => q.1 == 5) [(0, [1]), (5, [7])] ∧
    MNSignal.notebookRemoved 5 ∈
      (gtk_remove_tab
        { notebooks := [(0, [1]), (5, [7])], total_tabs := 2,
          active_tab := some 1, removing_notebook := false, log := [] }
        5 0).log :=
  c2_empty_pane_removal.1
    { notebooks := [(0, [1]), (5, [7])], total_tabs := 2,
      active_tab := some 1, removing_notebook := false, log := [] }
    5 7 (by decide) rfl (by decide) (by decide)

/-- C3 counterexample: the main pane (id 0, first in the list at
construction) is removed by a sequence of ordinary tab events — open a
tab in it, split off a second pane with a tab, then close the main pane's
only tab: the handler removes the now-empty main pane because it is not
the last notebook.  This refutes the claim that the first pane is never
removed. -/
theorem c3_main_pane_removed_counterexample :
    mnInit.notebooks = [(0, [])] ∧
    (mnRun mainPaneTrace mnInit).notebooks = [(1, [2])] ∧
    MNSignal.notebookRemoved 0 ∈ (mnRun mainPaneTrace mnInit).log := by
  decide

/-- C3 (amended): the sole remaining pane is never removed —
`remove_notebook` refuses (only a warning is logged and the state is left
entirely unchanged) whenever the pane list has at most one entry,
regardless of how many tabs that pane holds, and no sequence of events
ever leaves the pane list empty.  (The first pane, by contrast, can be
removed when it becomes empty while a second pane exists, as the
counterexample shows.) -/
theorem c3_sole_pane_never_removed :
    (∀ (s : MNState) (nid : Nat), s.notebooks.length ≤ 1 →
      remove_notebook s nid = s) ∧
    (∀ evs : List MNEvent, 1 ≤ (mnRun evs mnInit).notebooks.length) := by
  constructor
  · intro s nid h
    unfold remove_notebook
    rw [if_pos h]
  · intro evs
    exact mnRun_preserve (fun s => 1 ≤ s.notebooks.length)
      mnStep_length evs mnInit (by decide)

/-- Witness for C3 (amended, first conjunct): attempting to remove the
sole pane while it still holds two tabs is refused and changes nothing. -/
theorem c3_sole_pane_never_removed_witness :
    remove_notebook
        { notebooks := [(0, [5, 6])], total_tabs := 2, active_tab := some 5,
          removing_notebook := false, log := [] } 0 =
      { notebooks := [(0, [5, 6])], total_tabs := 2, active_tab := some 5,
        removing_notebook := false, log := [] } :=
  c3_sole_pane_never_removed.1
    { notebooks := [(0, [5, 6])], total_tabs := 2, active_tab := some 5,
      removing_notebook := false, log := [] } 0 (by decide)

/-! ## Remaining claim theorems -/

/-- C4: global tab indexing round-trips.  For a tab owned by notebook `k`
at local index `j` in any arrangement, the global index computed by
`gedit_multi_notebook_get_page_num` is the sum of the page counts of the
preceding notebooks plus the local index, and
`gedit_multi_notebook_set_current_page` maps that global index back to
the same notebook and the same local index. -/
theorem c4_page_num_round_trip (nbs : List (List Nat)) (tab k j : Nat)
    (h : first_occ nbs tab k j) :
    gedit_multi_notebook_get_page_num nbs tab = sumTake nbs k + (j : Int) ∧
    gedit_multi_notebook_set_current_page nbs
        (gedit_multi_notebook_get_page_num nbs tab) = some (k, (j : Int)) := by
  have hpn := get_page_num_first_occ nbs tab k j h
  refine ⟨hpn, ?_⟩
  have hj : j < (nbs.getD k []).length := by
    rw [← h.2.2.1]
    exact List.indexOf_lt_length.mpr h.2.1
  have := set_current_page_go_reaches nbs k j 0 0 h.1 hj
  rw [hpn]
  unfold gedit_multi_notebook_set_current_page
  simpa using this

/-- Witness for C4: the second tab of the second notebook in a two-pane
arrangement has global index 2 and maps back to pane 1, local index 1. -/
theorem c4_page_num_round_trip_witness :
    gedit_multi_notebook_get_page_num [[10], [20, 21]] 21 =
        sumTake [[10], [20, 21]] 1 + (1 : Int) ∧
    gedit_multi_notebook_set_current_page [[10], [20, 21]]
        (gedit_multi_notebook_get_page_num [[10], [20, 21]] 21) =
      some (1, (1 : Int)) :=
  c4_page_num_round_trip [[10], [20, 21]] 21 1 1 (by decide)

/-- C5: the encoding candidate resolver returns the settings' candidate
list (the built-in default list when the settings list is empty) with the
resolved metadata charset prepended and the previously negotiated file
encoding prepended in front of everything; in particular for empty
settings, metadata charset ISO-8859-1 and no file encoding the result is
the ISO-8859-1 encoding followed by the built-in default list. -/
theorem c5_candidate_encodings :
    (∀ settings_strv metadata_charset file_encoding,
      get_candidate_encodings settings_strv metadata_charset file_encoding =
        candidate_encodings_spec settings_strv metadata_charset file_encoding) ∧
    get_candidate_encodings [] (some "ISO-8859-1") none =
      "ISO-8859-1" :: default_candidates := by
  constructor
  · intro strv mc fe
    unfold get_candidate_encodings candidate_encodings_spec
    cases mc with
    | none => cases fe <;> by_cases h : strv = [] <;> simp [h]
    | some cs =>
        cases hcs : gtk_source_encoding_get_from_charset cs <;>
          cases fe <;> by_cases h : strv = [] <;> simp [h, hcs]
  · rfl

/-- C6: while a load or revert is in flight (state `LOADING` or
`REVERTING`) and while a save is in flight (state `SAVING`, or a save
task present), a further load, revert or save request is refused with the
controller left unchanged. -/
theorem c6_single_operation_in_flight :
    ∀ t : GeditTab,
      ((t.state = GeditTabState.loading ∨ t.state = GeditTabState.reverting) →
        gedit_tab_load t = (t, OpResult.refused) ∧
        gedit_tab_revert t = (t, OpResult.refused) ∧
        gedit_tab_save_async t = (t, OpResult.refused)) ∧
      (t.state = GeditTabState.saving →
        gedit_tab_load t = (t, OpResult.refused) ∧
        gedit_tab_revert t = (t, OpResult.refused) ∧
        gedit_tab_save_async t = (t, OpResult.refused)) ∧
      (t.task_saver = true →
        gedit_tab_save_async t = (t, OpResult.refused)) := by
  intro t
  refine ⟨fun h => ?_, fun h => ?_, fun h => ?_⟩
  · rcases h with h | h <;>
      simp [gedit_tab_load, gedit_tab_revert, gedit_tab_save_async, h]
  · simp [gedit_tab_load, gedit_tab_revert, gedit_tab_save_async, h]
  · unfold gedit_tab_save_async
    split
    · rfl
    · simp [h]

/-- Witness for C6 at a concrete loading tab. -/
theorem c6_single_operation_in_flight_witness :
    gedit_tab_load { baseTab with state := GeditTabState.loading } =
      ({ baseTab with state := GeditTabState.loading }, OpResult.refused) :=
  ((c6_single_operation_in_flight
    { baseTab with state := GeditTabState.loading }).1 (Or.inl rfl)).1

/-- C7: the initial save flags are the persisted custom flags with the
`CREATE_BACKUP` bit added exactly when the create-backup setting is on
and the save is not an auto save; consequently an auto-save launched with
the setting enabled passes the saver flags without `CREATE_BACKUP`. -/
theorem c7_initial_save_flags :
    (∀ (t : GeditTab) (auto_save : Bool),
      get_initial_save_flags t auto_save =
        { t.save_flags with
            create_backup :=
              t.save_flags.create_backup ||
                (t.setting_create_backup && !auto_save) }) ∧
    (∀ t : GeditTab,
      t.setting_create_backup = true →
      t.save_flags.create_backup = false →
      t.doc_untitled = false → t.doc_readonly = false →
      t.doc_modified = true → t.state = GeditTabState.normal →
      t.task_saver = false →
      (gedit_tab_auto_save t).1.saver_flags =
          some (get_initial_save_flags t true) ∧
        (get_initial_save_flags t true).create_backup = false) := by
  constructor
  · intro t auto_save
    unfold get_initial_save_flags
    cases hcb : t.setting_create_backup <;> cases auto_save <;> simp [hcb]
  · intro t hset hcb hunt hro hmod hst hts
    constructor
    · simp [gedit_tab_auto_save, hunt, hro, hmod, hst, hts, tab_save,
        gedit_tab_set_state, get_initial_save_flags]
    · simp [get_initial_save_flags, hcb]

/-- Witness for C7: a modified, titled, writable document in `NORMAL`
state with the create-backup setting on and no pending save. -/
theorem c7_initial_save_flags_witness :
    (gedit_tab_auto_save
        { baseTab with setting_create_backup := true, doc_modified := true }).1.saver_flags =
      some (get_initial_save_flags
        { baseTab with setting_create_backup := true, doc_modified := true } true) ∧
    (get_initial_save_flags
        { baseTab with setting_create_backup := true, doc_modified := true } true).create_backup =
      false :=
  c7_initial_save_flags.2
    { baseTab with setting_create_backup := true, doc_modified := true }
    rfl rfl rfl rfl rfl rfl rfl

/-- C8: a save completing with a saver-domain externally-modified error
always puts the controller in `SAVING_ERROR` with the
externally-modified recovery info bar, never the generic unrecoverable
one (that case is tested first in the classification chain). -/
theorem c8_externally_modified_save_error :
    ∀ t : GeditTab,
      t.state = GeditTabState.saving → t.task_saver = true →
      (save_cb t (some ⟨ErrorDomain.saverError, ErrorCode.externallyModified⟩)).state =
          GeditTabState.savingError ∧
      (save_cb t (some ⟨ErrorDomain.saverError, ErrorCode.externallyModified⟩)).info_bar =
          some InfoBarKind.externallyModifiedSavingError ∧
      (save_cb t (some ⟨ErrorDomain.saverError, ErrorCode.externallyModified⟩)).info_bar ≠
          some InfoBarKind.unrecoverableSavingError := by
  intro t hst hts
  simp [save_cb, hst, hts, gedit_tab_set_state, classify_saving_error]

/-- Witness for C8 at a concrete saving tab. -/
theorem c8_externally_modified_save_error_witness :
    (save_cb { baseTab with state := GeditTabState.saving, task_saver := true }
        (some ⟨ErrorDomain.saverError, ErrorCode.externallyModified⟩)).state =
      GeditTabState.savingError :=
  (c8_externally_modified_save_error
    { baseTab with state := GeditTabState.saving, task_saver := true }
    rfl rfl).1

/-- C9 counterexample: from `SHOWING_PRINT_PREVIEW` — a state other than
`NORMAL` — a print request is accepted (the preview is closed first and
the controller enters `PRINTING`), refuting that print is only accepted
in the `NORMAL` state and refused without state change elsewhere. -/
theorem c9_print_counterexample :
    previewTab.state ≠ GeditTabState.normal ∧
      (gedit_tab_print previewTab false).2 = OpResult.started ∧
      (gedit_tab_print previewTab false).1.state = GeditTabState.printing := by
  decide

/-- C9 (amended): from `NORMAL` a load request always transitions to
`LOADING`; a print request is accepted in `NORMAL` (with no pending print
job) and in `SHOWING_PRINT_PREVIEW` (where the preview is closed first);
in every other state it is refused without creating a print job or
changing the state. -/
theorem c9_load_and_print_states :
    ∀ (t : GeditTab) (print_error : Bool),
      (t.state = GeditTabState.normal →
        (gedit_tab_load t).1.state = GeditTabState.loading ∧
        (gedit_tab_load t).2 = OpResult.started) ∧
      (t.state ≠ GeditTabState.normal →
        t.state ≠ GeditTabState.showingPrintPreview →
        gedit_tab_print t print_error = (t, OpResult.refused)) ∧
      (t.state = GeditTabState.showingPrintPreview →
        (gedit_tab_print t print_error).2 = OpResult.started) ∧
      (t.state = GeditTabState.normal → t.print_job = false →
        (gedit_tab_print t print_error).2 = OpResult.started) := by
  intro t print_error
  refine ⟨fun h => ?_, fun h h2 => ?_, fun h => ?_, fun h hpj => ?_⟩
  · simp [gedit_tab_load, h, gedit_tab_set_state]
  · unfold gedit_tab_print
    simp only [h2, if_false]
    by_cases hpj : t.print_job = true <;> simp [hpj, h]
  · cases print_error <;>
      simp [gedit_tab_print, h, close_printing, gedit_tab_set_state]
  · cases print_error <;>
      simp [gedit_tab_print, h, hpj, close_printing, gedit_tab_set_state]

/-- Witness for C9 (amended): load from a concrete `NORMAL` tab enters
`LOADING`, and print from a concrete `LOADING` tab is refused
unchanged. -/
theorem c9_load_and_print_states_witness :
    ((gedit_tab_load baseTab).1.state = GeditTabState.loading ∧
      (gedit_tab_load baseTab).2 = OpResult.started) ∧
    gedit_tab_print { baseTab with state := GeditTabState.loading } false =
      ({ baseTab with state := GeditTabState.loading }, OpResult.refused) :=
  ⟨(c9_load_and_print_states baseTab false).1 rfl,
    (c9_load_and_print_states { baseTab with state := GeditTabState.loading }
      false).2.1 (by decide) (by decide)⟩

/-- C10: the can-close query is true in `LOADING`, `LOADING_ERROR`,
`REVERTING` and `REVERTING_ERROR` regardless of unsaved changes, false in
`SAVING_ERROR` regardless of the document, and otherwise false exactly
when the document needs saving. -/
theorem c10_can_close :
    ∀ t : GeditTab,
      ((t.state = GeditTabState.loading ∨ t.state = GeditTabState.loadingError ∨
        t.state = GeditTabState.reverting ∨ t.state = GeditTabState.revertingError) →
          gedit_tab_get_can_close t = true) ∧
      (t.state = GeditTabState.savingError → gedit_tab_get_can_close t = false) ∧
      (t.state ≠ GeditTabState.loading → t.state ≠ GeditTabState.loadingError →
        t.state ≠ GeditTabState.reverting → t.state ≠ GeditTabState.revertingError →
        t.state ≠ GeditTabState.savingError →
        gedit_tab_get_can_close t = !t.doc_needs_saving) := by
  intro t
  refine ⟨fun h => ?_, fun h => ?_, fun h1 h2 h3 h4 h5 => ?_⟩
  · simp [gedit_tab_get_can_close, h]
  · simp [gedit_tab_get_can_close, h]
  · simp [gedit_tab_get_can_close, h1, h2, h3, h4, h5]

/-- Witness for C10 at concrete tabs: a loading tab with unsaved changes
can be closed; a saving-error tab cannot; a normal tab can be closed iff
the document does not need saving. -/
theorem c10_can_close_witness :
    gedit_tab_get_can_close
        { baseTab with state := GeditTabState.loading, doc_needs_saving := true } =
      true ∧
    gedit_tab_get_can_close { baseTab with state := GeditTabState.savingError } =
      false ∧
    gedit_tab_get_can_close baseTab = !baseTab.doc_needs_saving :=
  ⟨(c10_can_close
      { baseTab with state := GeditTabState.loading, doc_needs_saving := true }).1
      (Or.inl rfl),
    (c10_can_close { baseTab with state := GeditTabState.savingError }).2.1 rfl,
    (c10_can_close baseTab).2.2 (by decide) (by decide) (by decide) (by decide)
      (by decide)⟩

end Gedit
